import Mathlib

/-
Shallow embedding of the etsu activity monitor (Rust) for checking its
natural-language specification.  Modelling conventions:
  f64      → ℝ (exact real arithmetic)
  usize    → Nat, with the wrap-around of atomic fetch_add made explicit
             through `% USIZE_MOD`
  i32/i64  → Int
  Result   → Except
External effects (sqlite/postgres queries, GLFW monitor queries) are modelled
by explicit state values plus boolean failure oracles, so every error path of
the source is representable.
-/

namespace Etsu

/-! ## Platform layer (src/platform.rs) -/

/-- Monitor descriptor cached by the platform layer (platform.rs, MonitorInfo). -/
structure MonitorInfo where
  id_hash : Nat
  name : String
  x : Int
  y : Int
  width_px : Nat
  height_px : Nat
  width_mm : Nat
  height_mm : Nat
  ppi : ℝ

/-- Platform error cases (platform.rs, PlatformError). -/
inductive PlatformError where
  | GlfwInit
  | CacheLock
  | CacheInit
  | MonitorNotFound
deriving DecidableEq, Repr

/-- PPI computation of get_info_for_monitor (platform.rs lines 78-90): average of
horizontal and vertical pixel density from the physical size in millimeters,
defaulting to 96 when the reported physical size is zero. -/
noncomputable def monitor_ppi (mode_width mode_height width_mm height_mm : Nat) : ℝ :=
  if 0 < width_mm ∧ 0 < height_mm then
    let width_in : ℝ := (width_mm : ℝ) / 25.4
    let height_in : ℝ := (height_mm : ℝ) / 25.4
    let ppi_x : ℝ := (mode_width : ℝ) / width_in
    let ppi_y : ℝ := (mode_height : ℝ) / height_in
    (ppi_x + ppi_y) / 2
  else
    96

/-- Monitor descriptor built by get_info_for_monitor (platform.rs).  The glfw
queries (name, position, video mode, physical size) and the xxhash of the name
are external inputs and are passed as arguments. -/
noncomputable def get_info_for_monitor (id_hash : Nat) (name : String) (x y : Int)
    (mode_width mode_height width_mm height_mm : Nat) : MonitorInfo :=
  { id_hash := id_hash
    name := name
    x := x
    y := y
    width_px := mode_width
    height_px := mode_height
    width_mm := width_mm
    height_mm := height_mm
    ppi := monitor_ppi mode_width mode_height width_mm height_mm }

/-- Containment test of get_monitor_for_point (platform.rs line 126). -/
def monitorContains (m : MonitorInfo) (x y : Int) : Bool :=
  decide (m.x ≤ x) && decide (x < m.x + (m.width_px : Int)) &&
    decide (m.y ≤ y) && decide (y < m.y + (m.height_px : Int))

/-- get_monitor_for_point (platform.rs): the cache argument models
MONITOR_INFO_CACHE (`none` = not initialized, giving the CacheInit error of
get_cached_monitor_info; lock poisoning never occurs in this sequential model).
If no monitor contains the point, the first discovered monitor is returned. -/
def get_monitor_for_point (cache : Option (List MonitorInfo)) (x y : Int) :
    Except PlatformError MonitorInfo :=
  match cache with
  | none => .error .CacheInit
  | some monitors =>
    if monitors.isEmpty then .error .MonitorNotFound
    else
      match monitors.find? (fun m => monitorContains m x y) with
      | some m => .ok m
      | none =>
        match monitors.head? with
        | some m => .ok m
        | none => .error .MonitorNotFound

/-! ## Distance normalizer (src/distance.rs) -/

/-- calculate_distance_inches (distance.rs): returns 0 before any registry
query when the two points are equal; otherwise locates both monitors, computes
the Euclidean pixel distance and divides by the first monitor's PPI
(substituting 96 when the reported PPI is not positive).  Cross-monitor moves
only emit a diagnostic. -/
noncomputable def calculate_distance_inches (cache : Option (List MonitorInfo))
    (x1 y1 x2 y2 : Int) : Except PlatformError ℝ :=
  if x1 = x2 ∧ y1 = y2 then
    .ok 0
  else
    match get_monitor_for_point cache x1 y1 with
    | .error e => .error e
    | .ok monitor1 =>
      match get_monitor_for_point cache x2 y2 with
      | .error e => .error e
      | .ok _monitor2 =>
        let ppi1 : ℝ := if 0 < monitor1.ppi then monitor1.ppi else 96
        let dx : ℝ := ((x2 - x1 : Int) : ℝ)
        let dy : ℝ := ((y2 - y1 : Int) : ℝ)
        let pixel_distance : ℝ := Real.sqrt (dx * dx + dy * dy)
        .ok (pixel_distance / ppi1)

/-- The single monitor of the spec's single-monitor distance test case:
300mm x 190mm physical size, 1920x1200 pixels, at origin. -/
noncomputable def specMonitor : MonitorInfo :=
  get_info_for_monitor 0 "Monitor 0" 0 0 1920 1200 300 190

theorem specMonitor_ppi : specMonitor.ppi = 76708 / 475 := by
  show monitor_ppi 1920 1200 300 190 = 76708 / 475
  rw [monitor_ppi, if_pos (by norm_num)]
  norm_num

theorem calc_spec_distance :
    calculate_distance_inches (some [specMonitor]) 0 0 100 0 =
      .ok ((11875 : ℝ) / 19177) := by
  have hfind : get_monitor_for_point (some [specMonitor]) 0 0 = .ok specMonitor := rfl
  have hfind2 : get_monitor_for_point (some [specMonitor]) 100 0 = .ok specMonitor := rfl
  rw [calculate_distance_inches, if_neg (by simp)]
  simp only [hfind, hfind2]
  have hpos : (0 : ℝ) < specMonitor.ppi := by
    rw [specMonitor_ppi]; norm_num
  rw [if_pos hpos]
  have hsqrt : Real.sqrt ((((100 : Int) - 0 : Int) : ℝ) * (((100 : Int) - 0 : Int) : ℝ) +
      (((0 : Int) - 0 : Int) : ℝ) * (((0 : Int) - 0 : Int) : ℝ)) = 100 := by
    have : ((((100 : Int) - 0 : Int) : ℝ) * (((100 : Int) - 0 : Int) : ℝ) +
        (((0 : Int) - 0 : Int) : ℝ) * (((0 : Int) - 0 : Int) : ℝ)) = 100 ^ 2 := by
      norm_num
    rw [this]
    exact Real.sqrt_sq (by norm_num)
  rw [hsqrt, specMonitor_ppi]
  congr 1
  norm_num

/-- Claim C5: for every point p, distance(p,p) returns 0.0 without querying the
monitor registry, hence succeeds (no NotInitialized / CacheInit error) for any
cache contents, including the uninitialized cache (`none`). -/
theorem same_point_distance_zero (cache : Option (List MonitorInfo)) (x y : Int) :
    calculate_distance_inches cache x y x y = .ok 0 := by
  rw [calculate_distance_inches, if_pos ⟨rfl, rfl⟩]

/-- Claim C3 fails on the code: for the monitor with width_mm=300, height_mm=190,
width_px=1920, height_px=1200 the computed PPI is 76708/475 ≈ 161.49, which is
more than 1 away from the claimed 162.7, and distance((0,0),(100,0)) is
11875/19177 ≈ 0.61923, which is not within 1e-3 of the claimed 0.6146. -/
theorem spec_distance_outside_claimed_tolerance :
    calculate_distance_inches (some [specMonitor]) 0 0 100 0 =
      .ok ((11875 : ℝ) / 19177) ∧
    ¬ |(11875 : ℝ) / 19177 - 0.6146| ≤ 1 / 1000 ∧
    ¬ |specMonitor.ppi - 162.7| ≤ 1 := by
  refine ⟨calc_spec_distance, ?_, ?_⟩
  · rw [abs_of_pos (by norm_num)]
    norm_num
  · rw [specMonitor_ppi, abs_of_neg (by norm_num)]
    norm_num

/-- Claim C3 amended: for that monitor the computed PPI (average of horizontal
and vertical pixel density) is exactly 76708/475 ≈ 161.49, and
distance((0,0),(100,0)) is exactly 11875/19177 ≈ 0.6192 inches, within an
absolute tolerance of 1e-3 of 0.6192. -/
theorem spec_distance_value :
    specMonitor.ppi = 76708 / 475 ∧
    calculate_distance_inches (some [specMonitor]) 0 0 100 0 =
      .ok ((11875 : ℝ) / 19177) ∧
    |(11875 : ℝ) / 19177 - 0.6192| ≤ 1 / 1000 := by
  refine ⟨specMonitor_ppi, calc_spec_distance, ?_⟩
  rw [abs_of_pos (by norm_num)]
  norm_num

/-! ## Shared metrics state (src/state.rs) -/

/-- Modulus of the 64-bit usize counters: AtomicUsize fetch_add wraps around. -/
def USIZE_MOD : Nat := 2 ^ 64

/-- Rust integer cast `as usize` from a signed integer (used for an i64 column
value and for the i32 scroll delta): reinterpretation modulo 2^64. -/
def int_as_usize (i : Int) : Nat := (i % (USIZE_MOD : Int)).toNat

/-- IntervalMetrics (state.rs): the interval counters.  AtomicUsize → Nat,
Mutex f64 → ℝ. -/
structure IntervalMetrics where
  keypresses : Nat
  mouse_clicks : Nat
  scroll_steps : Nat
  mouse_distance_in : ℝ

/-- IntervalMetrics::default(): all counters zero. -/
def IntervalMetrics.empty : IntervalMetrics := ⟨0, 0, 0, 0⟩

/-- IntervalMetrics::reset (state.rs lines 14-26): swap each atomic counter with
zero and take-and-zero the distance under its lock, returning the captured
values. -/
def IntervalMetrics.reset (m : IntervalMetrics) :
    (Nat × Nat × Nat × ℝ) × IntervalMetrics :=
  ((m.keypresses, m.mouse_clicks, m.scroll_steps, m.mouse_distance_in),
    IntervalMetrics.empty)

/-- TotalMetrics (state.rs): lifetime totals, same shape as IntervalMetrics. -/
structure TotalMetrics where
  keypresses : Nat
  mouse_clicks : Nat
  scroll_steps : Nat
  mouse_distance_in : ℝ

/-- TotalMetrics::default(): all counters zero. -/
def TotalMetrics.empty : TotalMetrics := ⟨0, 0, 0, 0⟩

/-- TotalMetrics::add_interval (state.rs lines 39-47): fetch_add on each
integer counter (wrapping), and the distance is added under its lock only when
it is strictly positive. -/
noncomputable def TotalMetrics.add_interval (t : TotalMetrics)
    (keys clicks scrolls : Nat) (distance : ℝ) : TotalMetrics :=
  { keypresses := (t.keypresses + keys) % USIZE_MOD
    mouse_clicks := (t.mouse_clicks + clicks) % USIZE_MOD
    scroll_steps := (t.scroll_steps + scrolls) % USIZE_MOD
    mouse_distance_in :=
      if 0 < distance then t.mouse_distance_in + distance
      else t.mouse_distance_in }

/-- MetricsState (state.rs): interval and total counters plus the last-known
and last-distance-calculated cursor positions (AtomicI32 → Int). -/
structure MetricsState where
  interval : IntervalMetrics
  total : TotalMetrics
  latest_mouse_x : Int
  latest_mouse_y : Int
  last_calc_mouse_x : Int
  last_calc_mouse_y : Int

/-- MetricsState::default(). -/
def MetricsState.empty : MetricsState :=
  ⟨IntervalMetrics.empty, TotalMetrics.empty, 0, 0, 0, 0⟩

/-- Claim C6: calling snapshotAndResetInterval twice with no intervening
record* writes yields (0, 0, 0, 0.0) from the second call: the first reset
zeroes all four interval counters. -/
theorem double_reset_yields_zero (m : IntervalMetrics) :
    ((m.reset).2.reset).1 = (0, 0, 0, (0 : ℝ)) := rfl

/-- Folding a sequence of delivered interval deltas into the totals with
TotalMetrics::add_interval, as the persistence loop does once per tick
(persistence.rs lines 43-48). -/
noncomputable def mergeDeltas (t : TotalMetrics)
    (ds : List (Nat × Nat × Nat × ℝ)) : TotalMetrics :=
  ds.foldl (fun acc d => acc.add_interval d.1 d.2.1 d.2.2.1 d.2.2.2) t

/-- Claim C7: starting from totals (K0,C0,S0,D0), merging delivered deltas
d1..dn leaves each total equal to its start value plus the sum of the
corresponding delta fields.  Delivered deltas have non-negative distances (the
aggregator only adds positive distances), and the integer sums are below the
usize wrap-around bound. -/
theorem totals_accumulation (t : TotalMetrics) (ds : List (Nat × Nat × Nat × ℝ))
    (hk : t.keypresses + (ds.map fun d => d.1).sum < USIZE_MOD)
    (hc : t.mouse_clicks + (ds.map fun d => d.2.1).sum < USIZE_MOD)
    (hs : t.scroll_steps + (ds.map fun d => d.2.2.1).sum < USIZE_MOD)
    (hd : ∀ d ∈ ds, 0 ≤ d.2.2.2) :
    (mergeDeltas t ds).keypresses = t.keypresses + (ds.map fun d => d.1).sum ∧
    (mergeDeltas t ds).mouse_clicks = t.mouse_clicks + (ds.map fun d => d.2.1).sum ∧
    (mergeDeltas t ds).scroll_steps = t.scroll_steps + (ds.map fun d => d.2.2.1).sum ∧
    (mergeDeltas t ds).mouse_distance_in =
      t.mouse_distance_in + (ds.map fun d => d.2.2.2).sum := by
  induction ds generalizing t with
  | nil => simp [mergeDeltas]
  | cons d ds ih =>
    simp only [List.map_cons, List.sum_cons] at hk hc hs ⊢
    have hd0 : 0 ≤ d.2.2.2 := hd d (List.mem_cons_self d ds)
    have hds : ∀ x ∈ ds, 0 ≤ x.2.2.2 := fun x hx => hd x (List.mem_cons_of_mem d hx)
    have hkd : t.keypresses + d.1 < USIZE_MOD := by omega
    have hcd : t.mouse_clicks + d.2.1 < USIZE_MOD := by omega
    have hsd : t.scroll_steps + d.2.2.1 < USIZE_MOD := by omega
    have hstep : mergeDeltas t (d :: ds) =
        mergeDeltas (t.add_interval d.1 d.2.1 d.2.2.1 d.2.2.2) ds := rfl
    rw [hstep]
    have h1 := ih (t.add_interval d.1 d.2.1 d.2.2.1 d.2.2.2)
      (by simp only [TotalMetrics.add_interval, Nat.mod_eq_of_lt hkd]; omega)
      (by simp only [TotalMetrics.add_interval, Nat.mod_eq_of_lt hcd]; omega)
      (by simp only [TotalMetrics.add_interval, Nat.mod_eq_of_lt hsd]; omega)
      hds
    have hdist : (t.add_interval d.1 d.2.1 d.2.2.1 d.2.2.2).mouse_distance_in =
        t.mouse_distance_in + d.2.2.2 := by
      simp only [TotalMetrics.add_interval]
      rcases lt_or_eq_of_le hd0 with h | h
      · rw [if_pos h]
      · rw [if_neg (by rw [← h]; exact lt_irrefl 0), ← h, add_zero]
    refine ⟨?_, ?_, ?_, ?_⟩
    · rw [h1.1]; simp only [TotalMetrics.add_interval, Nat.mod_eq_of_lt hkd]; omega
    · rw [h1.2.1]; simp only [TotalMetrics.add_interval, Nat.mod_eq_of_lt hcd]; omega
    · rw [h1.2.2.1]; simp only [TotalMetrics.add_interval, Nat.mod_eq_of_lt hsd]; omega
    · rw [h1.2.2.2, hdist, add_assoc]

/-- Witness for C7 at a concrete input. -/
theorem totals_accumulation_witness :
    (mergeDeltas ⟨1, 2, 3, 1⟩ [(1, 1, 1, (1 : ℝ)), (2, 0, 0, (0 : ℝ))]).keypresses
        = 1 + (([(1, 1, 1, (1 : ℝ)), (2, 0, 0, (0 : ℝ))].map
            fun d => d.1).sum) := by
  have h := totals_accumulation ⟨1, 2, 3, 1⟩ [(1, 1, 1, (1 : ℝ)), (2, 0, 0, (0 : ℝ))]
    (by norm_num [USIZE_MOD]) (by norm_num [USIZE_MOD]) (by norm_num [USIZE_MOD])
    (by intro d hd; fin_cases hd <;> norm_num)
  exact h.1

/-! ## Concurrent record operations against the interval counters

The record operations are the four state updates made by aggregate_metrics
(processing.rs lines 31-46 apply key/click/scroll, lines 57-60 add a positive
distance under the mutex).  Each single update is atomic (an atomic fetch_add,
or an add under the mutex), so a concurrent history is a linearization: a list
of operations interleaved with the four atomic captures of
IntervalMetrics::reset, which execute in program order. -/

/-- One concurrent record operation. -/
inductive RecordOp where
  | key : RecordOp
  | click : RecordOp
  | scroll (delta : Int) : RecordOp
  | dist (d : ℝ) : RecordOp

/-- Number of keypresses one operation issues. -/
def keyCount : RecordOp → Nat
  | .key => 1
  | _ => 0

/-- Number of mouse clicks one operation issues. -/
def clickCount : RecordOp → Nat
  | .click => 1
  | _ => 0

/-- Number of scroll steps one operation issues: the i32 wheel delta cast
`as usize` (processing.rs line 40). -/
def scrollCount : RecordOp → Nat
  | .scroll delta => int_as_usize delta
  | _ => 0

/-- Distance one operation issues. -/
noncomputable def distAmount : RecordOp → ℝ
  | .dist d => d
  | _ => 0

def issuedKeys (ops : List RecordOp) : Nat := (ops.map keyCount).sum

def issuedClicks (ops : List RecordOp) : Nat := (ops.map clickCount).sum

def issuedScrolls (ops : List RecordOp) : Nat := (ops.map scrollCount).sum

noncomputable def issuedDist (ops : List RecordOp) : ℝ := (ops.map distAmount).sum

/-- Effect of one record operation on the interval counters, exactly as
aggregate_metrics performs it: wrapping fetch_add for the integer counters, and
a positivity-guarded add for the distance. -/
noncomputable def applyRecord (m : IntervalMetrics) : RecordOp → IntervalMetrics
  | .key => { m with keypresses := (m.keypresses + 1) % USIZE_MOD }
  | .click => { m with mouse_clicks := (m.mouse_clicks + 1) % USIZE_MOD }
  | .scroll delta =>
    { m with scroll_steps := (m.scroll_steps + int_as_usize delta) % USIZE_MOD }
  | .dist d =>
    { m with mouse_distance_in :=
        if 0 < d then m.mouse_distance_in + d else m.mouse_distance_in }

noncomputable def runRecords (m : IntervalMetrics) (ops : List RecordOp) :
    IntervalMetrics :=
  ops.foldl applyRecord m

theorem issuedKeys_append (a b : List RecordOp) :
    issuedKeys (a ++ b) = issuedKeys a + issuedKeys b := by
  simp [issuedKeys]

theorem issuedClicks_append (a b : List RecordOp) :
    issuedClicks (a ++ b) = issuedClicks a + issuedClicks b := by
  simp [issuedClicks]

theorem issuedScrolls_append (a b : List RecordOp) :
    issuedScrolls (a ++ b) = issuedScrolls a + issuedScrolls b := by
  simp [issuedScrolls]

theorem issuedDist_append (a b : List RecordOp) :
    issuedDist (a ++ b) = issuedDist a + issuedDist b := by
  simp [issuedDist]

theorem runRecords_keypresses (ops : List RecordOp) :
    ∀ m : IntervalMetrics, m.keypresses + issuedKeys ops < USIZE_MOD →
      (runRecords m ops).keypresses = m.keypresses + issuedKeys ops := by
  induction ops with
  | nil => intro m _; simp [runRecords, issuedKeys]
  | cons op ops ih =>
    intro m h
    rw [show runRecords m (op :: ops) = runRecords (applyRecord m op) ops from rfl]
    rw [show issuedKeys (op :: ops) = keyCount op + issuedKeys ops from by
      simp [issuedKeys]] at h ⊢
    have happ : (applyRecord m op).keypresses = m.keypresses + keyCount op := by
      cases op with
      | key =>
        simp only [keyCount] at h
        simp only [applyRecord, keyCount]; exact Nat.mod_eq_of_lt (by omega)
      | click => simp [applyRecord, keyCount]
      | scroll delta => simp [applyRecord, keyCount]
      | dist d => simp [applyRecord, keyCount]
    rw [ih _ (by rw [happ]; omega), happ]
    omega

theorem runRecords_mouse_clicks (ops : List RecordOp) :
    ∀ m : IntervalMetrics, m.mouse_clicks + issuedClicks ops < USIZE_MOD →
      (runRecords m ops).mouse_clicks = m.mouse_clicks + issuedClicks ops := by
  induction ops with
  | nil => intro m _; simp [runRecords, issuedClicks]
  | cons op ops ih =>
    intro m h
    rw [show runRecords m (op :: ops) = runRecords (applyRecord m op) ops from rfl]
    rw [show issuedClicks (op :: ops) = clickCount op + issuedClicks ops from by
      simp [issuedClicks]] at h ⊢
    have happ : (applyRecord m op).mouse_clicks = m.mouse_clicks + clickCount op := by
      cases op with
      | key => simp [applyRecord, clickCount]
      | click =>
        simp only [clickCount] at h
        simp only [applyRecord, clickCount]; exact Nat.mod_eq_of_lt (by omega)
      | scroll delta => simp [applyRecord, clickCount]
      | dist d => simp [applyRecord, clickCount]
    rw [ih _ (by rw [happ]; omega), happ]
    omega

theorem runRecords_scroll_steps (ops : List RecordOp) :
    ∀ m : IntervalMetrics, m.scroll_steps + issuedScrolls ops < USIZE_MOD →
      (runRecords m ops).scroll_steps = m.scroll_steps + issuedScrolls ops := by
  induction ops with
  | nil => intro m _; simp [runRecords, issuedScrolls]
  | cons op ops ih =>
    intro m h
    rw [show runRecords m (op :: ops) = runRecords (applyRecord m op) ops from rfl]
    rw [show issuedScrolls (op :: ops) = scrollCount op + issuedScrolls ops from by
      simp [issuedScrolls]] at h ⊢
    have happ : (applyRecord m op).scroll_steps = m.scroll_steps + scrollCount op := by
      cases op with
      | key => simp [applyRecord, scrollCount]
      | click => simp [applyRecord, scrollCount]
      | scroll delta =>
        simp only [scrollCount] at h
        simp only [applyRecord, scrollCount]; exact Nat.mod_eq_of_lt (by omega)
      | dist d => simp [applyRecord, scrollCount]
    rw [ih _ (by rw [happ]; omega), happ]
    omega

theorem runRecords_distance (ops : List RecordOp) :
    ∀ m : IntervalMetrics, (∀ d, RecordOp.dist d ∈ ops → 0 ≤ d) →
      (runRecords m ops).mouse_distance_in =
        m.mouse_distance_in + issuedDist ops := by
  induction ops with
  | nil => intro m _; simp [runRecords, issuedDist]
  | cons op ops ih =>
    intro m h
    rw [show runRecords m (op :: ops) = runRecords (applyRecord m op) ops from rfl]
    rw [show issuedDist (op :: ops) = distAmount op + issuedDist ops from by
      simp [issuedDist]]
    have happ : (applyRecord m op).mouse_distance_in =
        m.mouse_distance_in + distAmount op := by
      cases op with
      | key => simp [applyRecord, distAmount]
      | click => simp [applyRecord, distAmount]
      | scroll delta => simp [applyRecord, distAmount]
      | dist d =>
        simp only [applyRecord, distAmount]
        have hd0 : 0 ≤ d := h d (List.mem_cons_self _ _)
        rcases lt_or_eq_of_le hd0 with hlt | heq
        · rw [if_pos hlt]
        · rw [if_neg (by rw [← heq]; exact lt_irrefl 0), ← heq, add_zero]
    rw [ih _ (fun d hd => h d (List.mem_cons_of_mem _ hd)), happ]
    ring

/-- Snapshot-and-reset interleaved with concurrent record operations: the four
atomic captures of IntervalMetrics::reset run in program order (keypresses,
mouse_clicks, scroll_steps, then the locked distance), with arbitrary record
operations t2, t3, t4 executing between them, t1 before the reset and t5 after
it.  Returns the tuple the reset captures and the interval state it leaves. -/
noncomputable def resetInterleaved (t1 t2 t3 t4 t5 : List RecordOp) :
    (Nat × Nat × Nat × ℝ) × IntervalMetrics :=
  let m1 := runRecords IntervalMetrics.empty t1
  let keys := m1.keypresses
  let m2 := runRecords { m1 with keypresses := 0 } t2
  let clicks := m2.mouse_clicks
  let m3 := runRecords { m2 with mouse_clicks := 0 } t3
  let scrolls := m3.scroll_steps
  let m4 := runRecords { m3 with scroll_steps := 0 } t4
  let distance := m4.mouse_distance_in
  let m5 := runRecords { m4 with mouse_distance_in := 0 } t5
  ((keys, clicks, scrolls, distance), m5)

/-- Sanity link with the sequential model: with nothing interleaved inside the
reset window, resetInterleaved is IntervalMetrics::reset after the pre-reset
operations. -/
theorem resetInterleaved_eq_reset (t1 t5 : List RecordOp) :
    resetInterleaved t1 [] [] [] t5 =
      (((runRecords IntervalMetrics.empty t1).reset).1,
        runRecords ((runRecords IntervalMetrics.empty t1).reset).2 t5) := rfl

/-- Claim C9: for any linearization of record operations around the one reset
(t1 before it, t2/t3/t4 between its four atomic captures, t5 after it), the
counters returned by the reset plus the counters left in the interval state
exactly equal the counts issued — every increment lands in exactly one
interval, none lost or double-counted.  Integer issue totals are below the
usize wrap-around bound, and issued distances are non-negative (the aggregator
only adds positive distances). -/
theorem reset_conservation (t1 t2 t3 t4 t5 : List RecordOp)
    (hk : issuedKeys (t1 ++ t2 ++ t3 ++ t4 ++ t5) < USIZE_MOD)
    (hc : issuedClicks (t1 ++ t2 ++ t3 ++ t4 ++ t5) < USIZE_MOD)
    (hs : issuedScrolls (t1 ++ t2 ++ t3 ++ t4 ++ t5) < USIZE_MOD)
    (hd : ∀ d, RecordOp.dist d ∈ t1 ++ t2 ++ t3 ++ t4 ++ t5 → 0 ≤ d) :
    (resetInterleaved t1 t2 t3 t4 t5).1.1 +
        (resetInterleaved t1 t2 t3 t4 t5).2.keypresses =
      issuedKeys (t1 ++ t2 ++ t3 ++ t4 ++ t5) ∧
    (resetInterleaved t1 t2 t3 t4 t5).1.2.1 +
        (resetInterleaved t1 t2 t3 t4 t5).2.mouse_clicks =
      issuedClicks (t1 ++ t2 ++ t3 ++ t4 ++ t5) ∧
    (resetInterleaved t1 t2 t3 t4 t5).1.2.2.1 +
        (resetInterleaved t1 t2 t3 t4 t5).2.scroll_steps =
      issuedScrolls (t1 ++ t2 ++ t3 ++ t4 ++ t5) ∧
    (resetInterleaved t1 t2 t3 t4 t5).1.2.2.2 +
        (resetInterleaved t1 t2 t3 t4 t5).2.mouse_distance_in =
      issuedDist (t1 ++ t2 ++ t3 ++ t4 ++ t5) := by
  simp only [issuedKeys_append, issuedClicks_append, issuedScrolls_append,
    issuedDist_append] at hk hc hs ⊢
  have hd1 : ∀ d, RecordOp.dist d ∈ t1 → 0 ≤ d := fun d hm =>
    hd d (by simp only [List.mem_append]; tauto)
  have hd2 : ∀ d, RecordOp.dist d ∈ t2 → 0 ≤ d := fun d hm =>
    hd d (by simp only [List.mem_append]; tauto)
  have hd3 : ∀ d, RecordOp.dist d ∈ t3 → 0 ≤ d := fun d hm =>
    hd d (by simp only [List.mem_append]; tauto)
  have hd4 : ∀ d, RecordOp.dist d ∈ t4 → 0 ≤ d := fun d hm =>
    hd d (by simp only [List.mem_append]; tauto)
  have hd5 : ∀ d, RecordOp.dist d ∈ t5 → 0 ≤ d := fun d hm =>
    hd d (by simp only [List.mem_append]; tauto)
  simp only [resetInterleaved]
  set m1 := runRecords IntervalMetrics.empty t1 with hm1
  set m2 := runRecords { m1 with keypresses := 0 } t2 with hm2
  set m3 := runRecords { m2 with mouse_clicks := 0 } t3 with hm3
  set m4 := runRecords { m3 with scroll_steps := 0 } t4 with hm4
  set m5 := runRecords { m4 with mouse_distance_in := 0 } t5 with hm5
  -- keypresses of each stage
  have e1k : m1.keypresses = issuedKeys t1 := by
    rw [hm1, runRecords_keypresses t1 IntervalMetrics.empty
      (by simp only [IntervalMetrics.empty]; omega)]
    simp [IntervalMetrics.empty]
  have e2k : m2.keypresses = issuedKeys t2 := by
    rw [hm2, runRecords_keypresses t2 _ (by simp; omega)]
    simp
  have e3k : m3.keypresses = issuedKeys t2 + issuedKeys t3 := by
    rw [hm3, runRecords_keypresses t3 _ (by simp only [e2k]; omega)]
    simp [e2k]
  have e4k : m4.keypresses = issuedKeys t2 + issuedKeys t3 + issuedKeys t4 := by
    rw [hm4, runRecords_keypresses t4 _ (by simp only [e3k]; omega)]
    simp [e3k, Nat.add_assoc]
  have e5k : m5.keypresses =
      issuedKeys t2 + issuedKeys t3 + issuedKeys t4 + issuedKeys t5 := by
    rw [hm5, runRecords_keypresses t5 _ (by simp only [e4k]; omega)]
    simp [e4k]
  -- mouse clicks of each stage
  have e1c : m1.mouse_clicks = issuedClicks t1 := by
    rw [hm1, runRecords_mouse_clicks t1 IntervalMetrics.empty
      (by simp only [IntervalMetrics.empty]; omega)]
    simp [IntervalMetrics.empty]
  have e2c : m2.mouse_clicks = issuedClicks t1 + issuedClicks t2 := by
    rw [hm2, runRecords_mouse_clicks t2 _ (by simp only [e1c]; omega)]
    simp [e1c]
  have e3c : m3.mouse_clicks = issuedClicks t3 := by
    rw [hm3, runRecords_mouse_clicks t3 _ (by simp; omega)]
    simp
  have e4c : m4.mouse_clicks = issuedClicks t3 + issuedClicks t4 := by
    rw [hm4, runRecords_mouse_clicks t4 _ (by simp only [e3c]; omega)]
    simp [e3c]
  have e5c : m5.mouse_clicks = issuedClicks t3 + issuedClicks t4 + issuedClicks t5 := by
    rw [hm5, runRecords_mouse_clicks t5 _ (by simp only [e4c]; omega)]
    simp [e4c]
  -- scroll steps of each stage
  have e1s : m1.scroll_steps = issuedScrolls t1 := by
    rw [hm1, runRecords_scroll_steps t1 IntervalMetrics.empty
      (by simp only [IntervalMetrics.empty]; omega)]
    simp [IntervalMetrics.empty]
  have e2s : m2.scroll_steps = issuedScrolls t1 + issuedScrolls t2 := by
    rw [hm2, runRecords_scroll_steps t2 _ (by simp only [e1s]; omega)]
    simp [e1s]
  have e3s : m3.scroll_steps = issuedScrolls t1 + issuedScrolls t2 + issuedScrolls t3 := by
    rw [hm3, runRecords_scroll_steps t3 _ (by simp only [e2s]; omega)]
    simp [e2s, Nat.add_assoc]
  have e4s : m4.scroll_steps = issuedScrolls t4 := by
    rw [hm4, runRecords_scroll_steps t4 _ (by simp; omega)]
    simp
  have e5s : m5.scroll_steps = issuedScrolls t4 + issuedScrolls t5 := by
    rw [hm5, runRecords_scroll_steps t5 _ (by simp only [e4s]; omega)]
    simp [e4s]
  -- distance of each stage
  have e1d : m1.mouse_distance_in = issuedDist t1 := by
    rw [hm1, runRecords_distance t1 IntervalMetrics.empty hd1]
    simp [IntervalMetrics.empty]
  have e2d : m2.mouse_distance_in = issuedDist t1 + issuedDist t2 := by
    rw [hm2, runRecords_distance t2 _ hd2]
    simp [e1d]
  have e3d : m3.mouse_distance_in = issuedDist t1 + issuedDist t2 + issuedDist t3 := by
    rw [hm3, runRecords_distance t3 _ hd3]
    simp [e2d, add_assoc]
  have e4d : m4.mouse_distance_in =
      issuedDist t1 + issuedDist t2 + issuedDist t3 + issuedDist t4 := by
    rw [hm4, runRecords_distance t4 _ hd4]
    simp [e3d, add_assoc]
  have e5d : m5.mouse_distance_in = issuedDist t5 := by
    rw [hm5, runRecords_distance t5 _ hd5]
    simp
  refine ⟨?_, ?_, ?_, ?_⟩
  · rw [e1k, e5k]; omega
  · rw [e2c, e5c]; omega
  · rw [e3s, e5s]; omega
  · rw [e4d, e5d]

/-- Witness for C9 at a concrete interleaving. -/
theorem reset_conservation_witness :
    (resetInterleaved [RecordOp.key, RecordOp.dist 1] [RecordOp.click]
          [RecordOp.scroll 2] [] [RecordOp.key]).1.1 +
        (resetInterleaved [RecordOp.key, RecordOp.dist 1] [RecordOp.click]
          [RecordOp.scroll 2] [] [RecordOp.key]).2.keypresses =
      issuedKeys ([RecordOp.key, RecordOp.dist 1] ++ [RecordOp.click] ++
        [RecordOp.scroll 2] ++ [] ++ [RecordOp.key]) := by
  have h := reset_conservation [RecordOp.key, RecordOp.dist 1] [RecordOp.click]
    [RecordOp.scroll 2] [] [RecordOp.key]
    (by norm_num [issuedKeys, keyCount, USIZE_MOD])
    (by norm_num [issuedClicks, clickCount, USIZE_MOD])
    (by norm_num [issuedScrolls, scrollCount, int_as_usize, USIZE_MOD])
    (by
      intro d hm
      simp only [List.cons_append, List.nil_append, List.append_nil,
        List.mem_cons, List.mem_singleton] at hm
      rcases hm with h | h | h | h | h <;> simp_all)
  exact h.1

/-! ## Persistence stores (src/db.rs)

A store (the local sqlite database or the remote postgres database) is its two
tables; the sqlx calls that can fail are driven by boolean failure oracles. -/

/-- A database error (db.rs surfaces sqlx errors through AppError::Database). -/
inductive DbError where
  | database
deriving DecidableEq, Repr

/-- One row of the append-only metrics table (i64 columns → Int, REAL → ℝ). -/
structure MetricsRow where
  keypresses : Int
  mouse_clicks : Int
  scroll_steps : Int
  mouse_distance_in : ℝ
  mouse_distance_mi : ℝ

/-- The single metrics_summary row with id = 1.  last_updated (set to
CURRENT_TIMESTAMP) is an abstract clock value. -/
structure SummaryRow where
  total_keypresses : Int
  total_mouse_clicks : Int
  total_scroll_steps : Int
  total_mouse_travel_in : ℝ
  total_mouse_travel_mi : ℝ
  last_updated : Nat

/-- The tables of one store: the metrics rows in insertion order, and the
summary row when present (`none` models a missing id = 1 row). -/
structure StoreState where
  metrics : List MetricsRow
  summary : Option SummaryRow

/-- MetricsData (db.rs): the delta handed to one persistence call. -/
structure MetricsData where
  keypresses : Nat
  mouse_clicks : Nat
  scroll_steps : Nat
  mouse_distance_in : ℝ

/-- Failure oracle for the startup read queries of load_initial_totals. -/
structure LoadFaults where
  summaryQueryFails : Bool
  summaryDecodeFails : Bool
  metricsQueryFails : Bool

def noLoadFaults : LoadFaults := ⟨false, false, false⟩

/-- load_initial_totals_from_summary (db.rs lines 178-219): select the summary
row with id = 1.  A failing query or a failing column decode (try_get with `?`)
is an error; an absent row yields Ok (0,0,0,0.0) with only a warning.  The i64
columns are cast `as usize`. -/
noncomputable def load_initial_totals_from_summary (faults : LoadFaults)
    (st : StoreState) : Except DbError (Nat × Nat × Nat × ℝ) :=
  if faults.summaryQueryFails then .error .database
  else
    match st.summary with
    | some row =>
      if faults.summaryDecodeFails then .error .database
      else
        .ok (int_as_usize row.total_keypresses, int_as_usize row.total_mouse_clicks,
          int_as_usize row.total_scroll_steps, row.total_mouse_travel_in)
    | none => .ok (0, 0, 0, 0)

/-- load_initial_totals_from_metrics (db.rs lines 129-175): aggregate the raw
metrics table with SUM.  The aggregate query returns one row; over an empty
table the sums are NULL and every try_get falls back to 0 via unwrap_or, which
coincides with the empty sums below.  Only the query itself can fail. -/
noncomputable def load_initial_totals_from_metrics (faults : LoadFaults)
    (st : StoreState) : Except DbError (Nat × Nat × Nat × ℝ) :=
  if faults.metricsQueryFails then .error .database
  else
    .ok (int_as_usize (st.metrics.map (fun r => r.keypresses)).sum,
      int_as_usize (st.metrics.map (fun r => r.mouse_clicks)).sum,
      int_as_usize (st.metrics.map (fun r => r.scroll_steps)).sum,
      (st.metrics.map (fun r => r.mouse_distance_in)).sum)

/-- load_initial_totals (db.rs lines 117-126): try the summary table first and
fall back to aggregating the metrics table only when that read errs. -/
noncomputable def load_initial_totals (faults : LoadFaults) (st : StoreState) :
    Except DbError (Nat × Nat × Nat × ℝ) :=
  match load_initial_totals_from_summary faults st with
  | .ok totals => .ok totals
  | .error _ => load_initial_totals_from_metrics faults st

/-- The startup phase of save_metrics_periodically (persistence.rs lines
24-38): store the loaded totals into state.total; on error only log and keep
the state's current totals.  The function is total — this phase cannot abort
the task. -/
noncomputable def persistence_startup (faults : LoadFaults) (st : StoreState)
    (state : MetricsState) : MetricsState :=
  match load_initial_totals faults st with
  | .ok (keys, clicks, scrolls, distance) =>
    { state with
        total :=
          { keypresses := keys
            mouse_clicks := clicks
            scroll_steps := scrolls
            mouse_distance_in := distance } }
  | .error _ => state

/-- A concrete raw-metrics row with five keypresses. -/
noncomputable def rowFiveKeys : MetricsRow := ⟨5, 0, 0, 0, 0⟩

/-- Claim C1 fails on the code: when the SummaryRow is absent (the summary
query succeeds but finds no id = 1 row), load_initial_totals does NOT fall back
to aggregating the raw metrics history — it returns zero totals directly, even
though aggregation would have returned the non-zero history (here five
keypresses). -/
theorem absent_summary_skips_metrics_fallback :
    load_initial_totals noLoadFaults ⟨[rowFiveKeys], none⟩ = .ok (0, 0, 0, 0) ∧
    load_initial_totals_from_metrics noLoadFaults ⟨[rowFiveKeys], none⟩ =
      .ok (5, 0, 0, 0) ∧
    (0, 0, 0, (0 : ℝ)) ≠ (5, 0, 0, (0 : ℝ)) := by
  refine ⟨rfl, ?_, fun h => absurd (congrArg Prod.fst h) (by decide)⟩
  simp only [load_initial_totals_from_metrics, noLoadFaults]
  norm_num [rowFiveKeys, int_as_usize, USIZE_MOD]
  rfl

/-- Claim C1 amended: at persistence-scheduler startup, if the summary read
fails (query or column decode error), the totals fall back to aggregating the
full raw-metrics history; if the SummaryRow is merely absent, totals start at
zero without consulting the raw history; if both the summary read and the raw
aggregation fail, the state keeps its current (zero) totals; startup never
aborts for this reason (persistence_startup is a total function). -/
theorem load_initial_totals_fallback (faults : LoadFaults) (st : StoreState)
    (state : MetricsState) :
    (faults.summaryQueryFails = true →
      load_initial_totals faults st = load_initial_totals_from_metrics faults st) ∧
    (faults.summaryDecodeFails = true → st.summary ≠ none →
      load_initial_totals faults st = load_initial_totals_from_metrics faults st) ∧
    (faults.summaryQueryFails = false → st.summary = none →
      load_initial_totals faults st = .ok (0, 0, 0, 0)) ∧
    (faults.summaryQueryFails = true → faults.metricsQueryFails = true →
      persistence_startup faults st state = state) := by
  refine ⟨?_, ?_, ?_, ?_⟩
  · intro hq
    rw [load_initial_totals, load_initial_totals_from_summary, if_pos hq]
  · intro hdec hsome
    match hsum : st.summary with
    | none => exact absurd hsum hsome
    | some row =>
      cases hq : faults.summaryQueryFails <;>
        simp [load_initial_totals, load_initial_totals_from_summary, hsum, hq, hdec]
  · intro hq hnone
    rw [load_initial_totals, load_initial_totals_from_summary, hnone, if_neg (by simp [hq])]
  · intro hq hm
    rw [persistence_startup, load_initial_totals, load_initial_totals_from_summary,
      if_pos hq, load_initial_totals_from_metrics, if_pos hm]

/-- Witness for C1 (amended) at concrete inputs. -/
theorem load_initial_totals_fallback_witness :
    load_initial_totals ⟨true, false, false⟩ ⟨[rowFiveKeys], none⟩ =
      load_initial_totals_from_metrics ⟨true, false, false⟩ ⟨[rowFiveKeys], none⟩ ∧
    load_initial_totals ⟨false, false, false⟩ ⟨[rowFiveKeys], none⟩ = .ok (0, 0, 0, 0) ∧
    persistence_startup ⟨true, false, true⟩ ⟨[rowFiveKeys], none⟩ MetricsState.empty =
      MetricsState.empty := by
  refine ⟨?_, ?_, ?_⟩
  · exact (load_initial_totals_fallback ⟨true, false, false⟩ ⟨[rowFiveKeys], none⟩
      MetricsState.empty).1 rfl
  · exact (load_initial_totals_fallback ⟨false, false, false⟩ ⟨[rowFiveKeys], none⟩
      MetricsState.empty).2.2.1 rfl rfl
  · exact (load_initial_totals_fallback ⟨true, false, true⟩ ⟨[rowFiveKeys], none⟩
      MetricsState.empty).2.2.2 rfl rfl

/-! ## Process startup (src/main.rs) -/

/-- Outcomes of the external startup collaborators, as booleans: configuration
load, GLFW monitor discovery, the sqlite pool connection, whether a remote
postgres URL is configured and its connection succeeds, and the two
migrations. -/
structure StartupEnv where
  configOk : Bool
  monitorInitOk : Bool
  sqliteConnectOk : Bool
  remoteUrlConfigured : Bool
  pgConnectOk : Bool
  sqliteMigrateOk : Bool
  pgMigrateOk : Bool

/-- Whether main reaches its steady state (with or without the remote pool) or
returns early with an error. -/
inductive StartupOutcome where
  | aborted : StartupOutcome
  | running (remoteEnabled : Bool) : StartupOutcome
deriving DecidableEq, Repr

/-- setup_database_pools (db.rs lines 48-88): a sqlite connection error
propagates with `?`; a postgres connection error is only warned and yields no
remote pool.  Returns whether the remote pool exists. -/
def setup_database_pools (env : StartupEnv) : Except DbError Bool :=
  if env.sqliteConnectOk = false then .error .database
  else .ok (env.remoteUrlConfigured && env.pgConnectOk)

/-- run_migrations (db.rs lines 91-114): the sqlite migration error propagates
with `?`; a postgres migration error is only warned. -/
def run_migrations (env : StartupEnv) (_pgPool : Bool) : Except DbError Unit :=
  if env.sqliteMigrateOk = false then .error .database
  else .ok ()

/-- The startup sequence of main (main.rs lines 28-70): a configuration error
aborts with `?`; a monitor-discovery error is only logged; a failure of
setup_database_pools aborts with `?`; the run_migrations result is only
logged — the early return on migration failure is commented out in the
source — and execution continues to task spawning. -/
def main_startup (env : StartupEnv) : StartupOutcome :=
  if env.configOk = false then .aborted
  else
    match setup_database_pools env with
    | .error _ => .aborted
    | .ok pgPool =>
      match run_migrations env pgPool with
      | _ => .running pgPool

/-- Claim C2 fails on the code: with a healthy configuration and sqlite
connection but a failing primary (sqlite) migration, run_migrations reports an
error, yet main_startup still reaches the running state — a primary migration
error at startup is not fatal. -/
theorem migration_error_not_fatal :
    run_migrations ⟨true, true, true, false, true, false, true⟩ false =
      .error .database ∧
    main_startup ⟨true, true, true, false, true, false, true⟩ = .running false ∧
    StartupOutcome.running false ≠ StartupOutcome.aborted := by
  refine ⟨rfl, rfl, by decide⟩

/-- Claim C2 amended: a primary store connectivity error at startup is fatal
(the process aborts before spawning any task), while a primary migration error
is logged and the process continues running. -/
theorem primary_store_startup_behavior (env : StartupEnv) :
    (env.configOk = true → env.sqliteConnectOk = false →
      main_startup env = .aborted) ∧
    (env.configOk = true → env.sqliteConnectOk = true →
      env.sqliteMigrateOk = false →
      main_startup env = .running (env.remoteUrlConfigured && env.pgConnectOk)) := by
  constructor
  · intro hcfg hconn
    rw [main_startup, if_neg (by simp [hcfg]), setup_database_pools, if_pos hconn]
  · intro hcfg hconn hmig
    rw [main_startup, if_neg (by simp [hcfg]), setup_database_pools,
      if_neg (by simp [hconn])]

/-- Witness for C2 (amended) at concrete environments. -/
theorem primary_store_startup_behavior_witness :
    main_startup ⟨true, true, false, false, true, true, true⟩ = .aborted ∧
    main_startup ⟨true, true, true, false, true, false, true⟩ =
      .running (false && true) := by
  constructor
  · exact (primary_store_startup_behavior
      ⟨true, true, false, false, true, true, true⟩).1 rfl rfl
  · exact (primary_store_startup_behavior
      ⟨true, true, true, false, true, false, true⟩).2 rfl rfl rfl

/-! ## Transactional persistence (src/db.rs lines 221-495)

A transaction is modelled by a working copy of the store: the insert and the
summary update transform the working copy, commit installs it in the pool, and
rollback (or an error before commit) leaves the pool unchanged.  The four sqlx
calls of one transaction can each fail, driven by a failure oracle. -/

/-- Failure oracle for the sqlx calls of one persistence transaction. -/
structure TxFaults where
  beginFails : Bool
  insertFails : Bool
  updateFails : Bool
  commitFails : Bool

def noTxFaults : TxFaults := ⟨false, false, false, false⟩

/-- The metrics row inserted for one delta (db.rs lines 359-377): miles are
derived from inches by dividing by 63360 at write time. -/
noncomputable def metricsRowOf (data : MetricsData) : MetricsRow :=
  { keypresses := (data.keypresses : Int)
    mouse_clicks := (data.mouse_clicks : Int)
    scroll_steps := (data.scroll_steps : Int)
    mouse_distance_in := data.mouse_distance_in
    mouse_distance_mi := data.mouse_distance_in / 63360 }

/-- The incremental summary update (db.rs lines 228-263): add the delta to each
total and set last_updated to the current timestamp. -/
noncomputable def applySummaryDelta (row : SummaryRow) (data : MetricsData)
    (now : Nat) : SummaryRow :=
  { total_keypresses := row.total_keypresses + (data.keypresses : Int)
    total_mouse_clicks := row.total_mouse_clicks + (data.mouse_clicks : Int)
    total_scroll_steps := row.total_scroll_steps + (data.scroll_steps : Int)
    total_mouse_travel_in := row.total_mouse_travel_in + data.mouse_distance_in
    total_mouse_travel_mi :=
      row.total_mouse_travel_mi + data.mouse_distance_in / 63360
    last_updated := now }

/-- update_summary_table_sqlite (db.rs lines 221-286) acting on the working
copy: a failing query is an error; when the id = 1 row is absent the UPDATE
affects zero rows, which is only warned (Ok, no change). -/
noncomputable def update_summary_table_sqlite (fails : Bool) (now : Nat)
    (tx : StoreState) (data : MetricsData) : Except DbError StoreState :=
  if fails = true then .error .database
  else
    match tx.summary with
    | some row => .ok { tx with summary := some (applySummaryDelta row data now) }
    | none => .ok tx

/-- persist_metrics_sqlite_in_tx (db.rs lines 355-386): insert the raw metrics
row, then apply the incremental summary update, both on the working copy. -/
noncomputable def persist_metrics_sqlite_in_tx (faults : TxFaults) (now : Nat)
    (tx : StoreState) (data : MetricsData) : Except DbError StoreState :=
  if faults.insertFails = true then .error .database
  else
    update_summary_table_sqlite faults.updateFails now
      { tx with metrics := tx.metrics ++ [metricsRowOf data] } data

/-- persist_metrics_transactional_sqlite (db.rs lines 447-470): begin a
transaction, run persist_metrics_sqlite_in_tx, commit on success (commit
failure propagates with `?` and the transaction is not installed), roll back
and return the error otherwise. -/
noncomputable def persist_metrics_transactional_sqlite (faults : TxFaults)
    (now : Nat) (pool : StoreState) (data : MetricsData) :
    Except DbError Unit × StoreState :=
  if faults.beginFails = true then (.error .database, pool)
  else
    match persist_metrics_sqlite_in_tx faults now pool data with
    | .ok txFinal =>
      if faults.commitFails = true then (.error .database, pool)
      else (.ok (), txFinal)
    | .error e => (.error e, pool)

/-- persist_metrics_sqlite (db.rs lines 421-432): skip entirely-zero deltas,
otherwise run the transactional persist. -/
noncomputable def persist_metrics_sqlite (faults : TxFaults) (now : Nat)
    (pool : StoreState) (data : MetricsData) :
    Except DbError Unit × StoreState :=
  if data.keypresses = 0 ∧ data.mouse_clicks = 0 ∧ data.scroll_steps = 0 ∧
      data.mouse_distance_in = 0 then
    (.ok (), pool)
  else persist_metrics_transactional_sqlite faults now pool data

/-- update_summary_table_postgres (db.rs lines 288-353): structurally identical
to the sqlite version. -/
noncomputable def update_summary_table_postgres (fails : Bool) (now : Nat)
    (tx : StoreState) (data : MetricsData) : Except DbError StoreState :=
  if fails = true then .error .database
  else
    match tx.summary with
    | some row => .ok { tx with summary := some (applySummaryDelta row data now) }
    | none => .ok tx

/-- persist_metrics_postgres_in_tx (db.rs lines 388-419). -/
noncomputable def persist_metrics_postgres_in_tx (faults : TxFaults) (now : Nat)
    (tx : StoreState) (data : MetricsData) : Except DbError StoreState :=
  if faults.insertFails = true then .error .database
  else
    update_summary_table_postgres faults.updateFails now
      { tx with metrics := tx.metrics ++ [metricsRowOf data] } data

/-- persist_metrics_transactional_postgres (db.rs lines 472-495). -/
noncomputable def persist_metrics_transactional_postgres (faults : TxFaults)
    (now : Nat) (pool : StoreState) (data : MetricsData) :
    Except DbError Unit × StoreState :=
  if faults.beginFails = true then (.error .database, pool)
  else
    match persist_metrics_postgres_in_tx faults now pool data with
    | .ok txFinal =>
      if faults.commitFails = true then (.error .database, pool)
      else (.ok (), txFinal)
    | .error e => (.error e, pool)

/-- persist_metrics_postgres (db.rs lines 434-445). -/
noncomputable def persist_metrics_postgres (faults : TxFaults) (now : Nat)
    (pool : StoreState) (data : MetricsData) :
    Except DbError Unit × StoreState :=
  if data.keypresses = 0 ∧ data.mouse_clicks = 0 ∧ data.scroll_steps = 0 ∧
      data.mouse_distance_in = 0 then
    (.ok (), pool)
  else persist_metrics_transactional_postgres faults now pool data

/-- Claim C4: the raw-row insert and the incremental SummaryRow update run in
one transaction.  It commits exactly when both steps (and begin/commit
themselves) succeed, in which case the store gains the one raw row and the
updated summary; on any failure the store is unchanged; in particular a
SummaryRow-update failure after a successful raw-row insert rolls the insert
back, leaving the row count unchanged. -/
theorem persist_transaction_atomic (faults : TxFaults) (now : Nat)
    (pool : StoreState) (data : MetricsData) :
    ((persist_metrics_transactional_sqlite faults now pool data).1 = .ok () →
      faults.insertFails = false ∧ faults.updateFails = false ∧
      (persist_metrics_transactional_sqlite faults now pool data).2.metrics =
        pool.metrics ++ [metricsRowOf data] ∧
      (∀ row, pool.summary = some row →
        (persist_metrics_transactional_sqlite faults now pool data).2.summary =
          some (applySummaryDelta row data now))) ∧
    ((persist_metrics_transactional_sqlite faults now pool data).1 ≠ .ok () →
      (persist_metrics_transactional_sqlite faults now pool data).2 = pool) ∧
    (faults.insertFails = false → faults.updateFails = true →
      (persist_metrics_transactional_sqlite faults now pool data).1 =
        .error .database ∧
      (persist_metrics_transactional_sqlite faults now pool data).2.metrics.length =
        pool.metrics.length) := by
  obtain ⟨b, i, u, c⟩ := faults
  cases hsum : pool.summary <;> cases b <;> cases i <;> cases u <;> cases c <;>
    simp [persist_metrics_transactional_sqlite, persist_metrics_sqlite_in_tx,
      update_summary_table_sqlite, hsum]

/-- Witness for C4 at concrete inputs: the all-success case commits, and the
update-fails-after-insert case leaves the row count unchanged. -/
theorem persist_transaction_atomic_witness :
    (persist_metrics_transactional_sqlite noTxFaults 7
        ⟨[], some ⟨0, 0, 0, 0, 0, 0⟩⟩ ⟨1, 2, 3, 1⟩).2.metrics =
      [] ++ [metricsRowOf ⟨1, 2, 3, 1⟩] ∧
    (persist_metrics_transactional_sqlite ⟨false, false, true, false⟩ 7
        ⟨[], some ⟨0, 0, 0, 0, 0, 0⟩⟩ ⟨1, 2, 3, 1⟩).2.metrics.length =
      ([] : List MetricsRow).length := by
  constructor
  · exact ((persist_transaction_atomic noTxFaults 7
      ⟨[], some ⟨0, 0, 0, 0, 0, 0⟩⟩ ⟨1, 2, 3, 1⟩).1 rfl).2.2.1
  · exact ((persist_transaction_atomic ⟨false, false, true, false⟩ 7
      ⟨[], some ⟨0, 0, 0, 0, 0, 0⟩⟩ ⟨1, 2, 3, 1⟩).2.2 rfl rfl).2

/-! ## Persistence scheduler loop (src/persistence.rs lines 40-72) -/

/-- Failure oracle for the two independent store transactions of one tick. -/
structure TickFaults where
  sqlite : TxFaults
  pg : TxFaults

/-- Observable result of one tick: the in-memory state, the two stores, and —
for stating retry-freedom — the delta handed to the postgres persist call
(`none` when the tick skipped persistence or no remote pool exists). -/
structure TickResult where
  state : MetricsState
  sqliteDb : StoreState
  pgDb : Option StoreState
  pgAttempt : Option MetricsData

/-- One iteration of the save_metrics_periodically loop: snapshot-and-reset the
interval counters, merge the delta into the in-memory totals, and when any
field is non-zero persist it to sqlite and — when a remote pool exists — to
postgres, with each store error only logged. -/
noncomputable def save_tick (faults : TickFaults) (now : Nat)
    (state : MetricsState) (sqliteDb : StoreState) (pgDb : Option StoreState) :
    TickResult :=
  let r := state.interval.reset
  let keys := r.1.1
  let clicks := r.1.2.1
  let scrolls := r.1.2.2.1
  let distance := r.1.2.2.2
  let state1 : MetricsState :=
    { state with
        interval := r.2
        total := state.total.add_interval keys clicks scrolls distance }
  if 0 < keys ∨ 0 < clicks ∨ 0 < scrolls ∨ 0 < distance then
    let data : MetricsData := ⟨keys, clicks, scrolls, distance⟩
    let sq1 := (persist_metrics_sqlite faults.sqlite now sqliteDb data).2
    match pgDb with
    | some pg =>
      { state := state1
        sqliteDb := sq1
        pgDb := some (persist_metrics_postgres faults.pg now pg data).2
        pgAttempt := some data }
    | none =>
      { state := state1, sqliteDb := sq1, pgDb := none, pgAttempt := none }
  else
    { state := state1, sqliteDb := sqliteDb, pgDb := pgDb, pgAttempt := none }

/-- A tick on a state whose interval counters are all zero skips persistence:
nothing is attempted on the secondary store. -/
theorem save_tick_skip (f : TickFaults) (now : Nat) (s : MetricsState)
    (sq : StoreState) (pgDb : Option StoreState)
    (h : s.interval = IntervalMetrics.empty) :
    (save_tick f now s sq pgDb).pgAttempt = none := by
  simp [save_tick, IntervalMetrics.reset, h, IntervalMetrics.empty]

/-- Claim C8: on a tick whose secondary (postgres) write fails while the
primary transaction is healthy and the delta is non-empty (any of the four
interval fields is positive, the exact condition under which the tick
persists at all): the primary store
still gains exactly one row, the in-memory totals still advance by the delta,
the secondary store is unchanged, the secondary outcome never feeds back into
the state or the primary store, the delta attempted on the secondary is
exactly this tick's delta, and the immediately following tick (with no new
records) attempts nothing on the secondary — the failed delta is never
retried. -/
theorem secondary_failure_isolated (faults : TickFaults) (now now2 : Nat)
    (state : MetricsState) (sq : StoreState) (pg : StoreState)
    (hpg : faults.pg.beginFails = true)
    (hsq : faults.sqlite = noTxFaults)
    (hnz : 0 < state.interval.keypresses ∨ 0 < state.interval.mouse_clicks ∨
      0 < state.interval.scroll_steps ∨ 0 < state.interval.mouse_distance_in) :
    (save_tick faults now state sq (some pg)).sqliteDb.metrics.length =
      sq.metrics.length + 1 ∧
    (save_tick faults now state sq (some pg)).state.total =
      state.total.add_interval state.interval.keypresses
        state.interval.mouse_clicks state.interval.scroll_steps
        state.interval.mouse_distance_in ∧
    (save_tick faults now state sq (some pg)).pgDb = some pg ∧
    (∀ g : TickFaults, g.sqlite = faults.sqlite →
      (save_tick g now state sq (some pg)).state =
          (save_tick faults now state sq (some pg)).state ∧
        (save_tick g now state sq (some pg)).sqliteDb =
          (save_tick faults now state sq (some pg)).sqliteDb) ∧
    (save_tick faults now state sq (some pg)).pgAttempt =
      some ⟨state.interval.keypresses, state.interval.mouse_clicks,
        state.interval.scroll_steps, state.interval.mouse_distance_in⟩ ∧
    (save_tick ⟨noTxFaults, noTxFaults⟩ now2
        (save_tick faults now state sq (some pg)).state
        (save_tick faults now state sq (some pg)).sqliteDb
        (save_tick faults now state sq (some pg)).pgDb).pgAttempt = none := by
  have hskip : ¬(state.interval.keypresses = 0 ∧ state.interval.mouse_clicks = 0 ∧
      state.interval.scroll_steps = 0 ∧ state.interval.mouse_distance_in = 0) := by
    intro hall
    rcases hnz with h | h | h | h <;> simp_all
  refine ⟨?_, ?_, ?_, ?_, ?_, ?_⟩
  · cases hss : sq.summary <;>
      simp [save_tick, IntervalMetrics.reset, persist_metrics_sqlite,
        persist_metrics_transactional_sqlite, persist_metrics_sqlite_in_tx,
        update_summary_table_sqlite, hsq, noTxFaults, hnz, hskip, hss]
  · simp [save_tick, IntervalMetrics.reset, hnz]
  · simp [save_tick, IntervalMetrics.reset, persist_metrics_postgres,
      persist_metrics_transactional_postgres, hpg, hnz, hskip]
  · intro g hg
    constructor <;> simp [save_tick, IntervalMetrics.reset, hg, hnz]
  · simp [save_tick, IntervalMetrics.reset, hnz]
  · have hstate : (save_tick faults now state sq (some pg)).state.interval =
        IntervalMetrics.empty := by
      simp [save_tick, IntervalMetrics.reset, hnz]
    exact save_tick_skip _ now2 _ _ _ hstate

/-- A state whose pending interval delta is non-empty only through the
distance accumulator (no keypresses, clicks or scrolls). -/
noncomputable def stateOneInch : MetricsState :=
  ⟨⟨0, 0, 0, 1⟩, ⟨0, 0, 0, 0⟩, 0, 0, 0, 0⟩

/-- Witness for C8 at a concrete input whose delta carries only distance. -/
theorem secondary_failure_isolated_witness :
    (save_tick ⟨noTxFaults, ⟨true, false, false, false⟩⟩ 7 stateOneInch
        ⟨[], some ⟨0, 0, 0, 0, 0, 0⟩⟩
        (some ⟨[], some ⟨0, 0, 0, 0, 0, 0⟩⟩)).sqliteDb.metrics.length =
      (⟨[], some ⟨0, 0, 0, 0, 0, 0⟩⟩ : StoreState).metrics.length + 1 ∧
    (save_tick ⟨noTxFaults, ⟨true, false, false, false⟩⟩ 7 stateOneInch
        ⟨[], some ⟨0, 0, 0, 0, 0, 0⟩⟩
        (some ⟨[], some ⟨0, 0, 0, 0, 0, 0⟩⟩)).pgDb =
      some ⟨[], some ⟨0, 0, 0, 0, 0, 0⟩⟩ := by
  have h := secondary_failure_isolated ⟨noTxFaults, ⟨true, false, false, false⟩⟩
    7 8 stateOneInch ⟨[], some ⟨0, 0, 0, 0, 0, 0⟩⟩ ⟨[], some ⟨0, 0, 0, 0, 0, 0⟩⟩
    rfl rfl (Or.inr (Or.inr (Or.inr (by norm_num [stateOneInch]))))
  exact ⟨h.1, h.2.2.1⟩

/-! ## Aggregator timer branch (src/processing.rs lines 48-68) -/

/-- One timer tick of aggregate_metrics: when the last-known cursor position
differs from the last-calculated one, compute the distance (adding it to the
interval accumulator only when positive; an error is only logged) and advance
the last-calculated-position marker to the current position in both cases. -/
noncomputable def processing_tick (cache : Option (List MonitorInfo))
    (s : MetricsState) : MetricsState :=
  if s.latest_mouse_x ≠ s.last_calc_mouse_x ∨
      s.latest_mouse_y ≠ s.last_calc_mouse_y then
    let s1 :=
      match calculate_distance_inches cache s.last_calc_mouse_x
          s.last_calc_mouse_y s.latest_mouse_x s.latest_mouse_y with
      | .ok distance_moved =>
        if 0 < distance_moved then
          { s with
              interval :=
                { s.interval with
                    mouse_distance_in :=
                      s.interval.mouse_distance_in + distance_moved } }
        else s
      | .error _ => s
    { s1 with
        last_calc_mouse_x := s.latest_mouse_x
        last_calc_mouse_y := s.latest_mouse_y }
  else s

/-- A processing tick is idempotent: after one tick the marker equals the
current position, so an immediately repeated tick with an unchanged cursor
changes nothing — an errored movement is never re-attempted. -/
theorem processing_tick_idem (cache : Option (List MonitorInfo))
    (s : MetricsState) :
    processing_tick cache (processing_tick cache s) = processing_tick cache s := by
  by_cases h : s.latest_mouse_x ≠ s.last_calc_mouse_x ∨
      s.latest_mouse_y ≠ s.last_calc_mouse_y
  · have hx : (processing_tick cache s).latest_mouse_x = s.latest_mouse_x ∧
        (processing_tick cache s).latest_mouse_y = s.latest_mouse_y ∧
        (processing_tick cache s).last_calc_mouse_x = s.latest_mouse_x ∧
        (processing_tick cache s).last_calc_mouse_y = s.latest_mouse_y := by
      cases hc : calculate_distance_inches cache s.last_calc_mouse_x
          s.last_calc_mouse_y s.latest_mouse_x s.latest_mouse_y with
      | ok d => by_cases hd : 0 < d <;> simp [processing_tick, h, hc, hd]
      | error e => simp [processing_tick, h, hc]
    have hcond : ¬((processing_tick cache s).latest_mouse_x ≠
          (processing_tick cache s).last_calc_mouse_x ∨
        (processing_tick cache s).latest_mouse_y ≠
          (processing_tick cache s).last_calc_mouse_y) := by
      rw [hx.1, hx.2.1, hx.2.2.1, hx.2.2.2]
      simp
    rw [processing_tick, if_neg hcond]
  · have hstop : processing_tick cache s = s := by
      rw [processing_tick, if_neg h]
    rw [hstop]
    exact hstop

/-- Claim C10: on a processing tick where the cursor moved since the last
distance calculation but the calculation errs, the last-calculated-position
marker still advances to the current position, nothing is added to the
interval distance accumulator (the whole interval state and the totals are
untouched), and the errored movement is never re-attempted: a repeated tick
with an unchanged cursor is a no-op. -/
theorem errored_distance_advances_marker (cache : Option (List MonitorInfo))
    (s : MetricsState) (e : PlatformError)
    (hmoved : s.latest_mouse_x ≠ s.last_calc_mouse_x ∨
      s.latest_mouse_y ≠ s.last_calc_mouse_y)
    (herr : calculate_distance_inches cache s.last_calc_mouse_x
        s.last_calc_mouse_y s.latest_mouse_x s.latest_mouse_y = .error e) :
    (processing_tick cache s).last_calc_mouse_x = s.latest_mouse_x ∧
    (processing_tick cache s).last_calc_mouse_y = s.latest_mouse_y ∧
    (processing_tick cache s).interval = s.interval ∧
    (processing_tick cache s).total = s.total ∧
    processing_tick cache (processing_tick cache s) = processing_tick cache s := by
  refine ⟨?_, ?_, ?_, ?_, processing_tick_idem cache s⟩ <;>
    simp [processing_tick, hmoved, herr]

/-- A state whose cursor moved to (100, 0) with an uninitialized monitor
registry behind it. -/
noncomputable def stateMoved : MetricsState :=
  ⟨⟨0, 0, 0, 0⟩, ⟨0, 0, 0, 0⟩, 100, 0, 0, 0⟩

/-- Witness for C10 at a concrete input: before monitor discovery (cache
`none`) the distance calculation errs with CacheInit, yet the marker advances
and the interval distance stays zero. -/
theorem errored_distance_advances_marker_witness :
    (processing_tick none stateMoved).last_calc_mouse_x = stateMoved.latest_mouse_x ∧
    (processing_tick none stateMoved).interval = stateMoved.interval := by
  have h := errored_distance_advances_marker none stateMoved .CacheInit
    (Or.inl (by norm_num [stateMoved])) rfl
  exact ⟨h.1, h.2.2.1⟩

end Etsu
